import Mathlib

/-!
Verification development for the authentication-and-lockout subsystem of
the `event_manager` repository: the JWT token service
(`app/services/jwt_service.py`), the user model (`app/models/user_model.py`),
and the lockout policy described by the design document.

Machine integers are modelled as `Int`/`Nat`; instants and durations are
integer numbers of seconds (a Python `timedelta` of `m` minutes is `m * 60`
seconds); Python `dict`s over string keys are association lists with
first-occurrence lookup and in-place update, matching `dict` semantics for
the unique-key dictionaries the code builds.
-/

/-- JSON-style claim values appearing in a token payload: strings and
integer instants. -/
inductive JVal where
  | s (v : String)
  | n (v : Int)
deriving DecidableEq, Repr

/-- A Python `dict` with string keys, as an association list. The dicts the
code manipulates have unique keys; lookup takes the first occurrence and
update rewrites the first occurrence in place (or appends), matching
`dict` semantics. -/
abbrev Dict := List (String × JVal)

/-- Membership test `k in d` of a Python dict. -/
def dictContains : Dict → String → Bool
  | [], _ => false
  | (k2, _) :: rest, k => k2 == k || dictContains rest k

/-- Lookup `d[k]` of a Python dict, `none` when the key is absent. -/
def dictGet? : Dict → String → Option JVal
  | [], _ => none
  | (k2, v) :: rest, k => if k2 == k then some v else dictGet? rest k

/-- Assignment `d[k] = v` of a Python dict: replaces the value at the first
occurrence of `k`, or appends the new pair when `k` is absent. -/
def dictSet : Dict → String → JVal → Dict
  | [], k, v => [(k, v)]
  | (k2, v2) :: rest, k, v =>
    if k2 == k then (k2, v) :: rest else (k2, v2) :: dictSet rest k v

/-- Python's `str.upper()` restricted to ASCII, written with structural
recursion over the character list so it computes in the kernel. -/
def strUpper (v : String) : String := String.mk (v.data.map Char.toUpper)

/-- The effect of `.upper()` on a claim value. The code calls it only on the
string-valued `role` claim; on an integer value Python would raise, which no
examined behaviour reaches, so the integer case is the identity. -/
def jvalUpper : JVal → JVal
  | .s v => .s (strUpper v)
  | .n v => .n v

/-- The process-wide configuration consumed by the token service
(`settings.access_token_expire_minutes`, `settings.jwt_secret_key`,
`settings.jwt_algorithm`). -/
structure Settings where
  access_token_expire_minutes : Int
  jwt_secret_key : String
  jwt_algorithm : String
deriving DecidableEq, Repr

/-- The duration actually added to the clock by `create_access_token`:
`expires_delta or timedelta(minutes=settings.access_token_expire_minutes)`.
Python's `or` takes the right operand when `expires_delta` is `None` or a
zero-length (falsy) `timedelta`. -/
def effectiveTTL (s : Settings) (expires_delta : Option Int) : Int :=
  match expires_delta with
  | some d => if d = 0 then s.access_token_expire_minutes * 60 else d
  | none => s.access_token_expire_minutes * 60

/-- The payload dict assembled by `create_access_token` from the caller's
`data`: a copy of `data`, with `to_encode['role'] = to_encode['role'].upper()`
applied when `'role' in to_encode`, and `exp` set to the computed expiry
instant. -/
def issuedPayload (s : Settings) (data : Dict) (expires_delta : Option Int)
    (now : Int) : Dict :=
  let to_encode := data
  let to_encode :=
    match dictGet? to_encode "role" with
    | some v => dictSet to_encode "role" (jvalUpper v)
    | none => to_encode
  let expire := now + effectiveTTL s expires_delta
  dictSet to_encode "exp" (.n expire)

/-- A wire-format token as seen by `jwt.decode`: either a well-formed signed
structure (symbolic model of the signature: the payload together with the key
and algorithm it was signed under), or a malformed string that fails header
or segment parsing. -/
inductive Wire where
  | signed (payload : Dict) (key : String) (alg : String)
  | malformed (raw : String)
deriving DecidableEq, Repr

/-- Symbolic model of `jwt.encode(payload, key, algorithm=alg)`: a signed,
tamper-evident encoding of the payload under the key and algorithm. -/
def jwtEncode (payload : Dict) (key : String) (alg : String) : Wire :=
  .signed payload key alg

/-- The failure cases of `jwt.decode`, all subclasses of `jwt.PyJWTError`:
malformed encoding (`DecodeError`), signature or algorithm mismatch
(`InvalidSignatureError` / `InvalidAlgorithmError`), and expiry
(`ExpiredSignatureError`). -/
inductive JwtError where
  | decodeError
  | invalidSignature
  | expiredSignature
deriving DecidableEq, Repr

/-- Symbolic model of `jwt.decode(token, key, algorithms=algs)` at instant
`now`: malformed input fails to parse; a signed structure verifies only under
the signing key and an allowed algorithm; an `exp` claim must be numeric and
the token is expired exactly when `exp <= now` (PyJWT rejects at
`exp <= now - leeway` with zero leeway, so validity is `now < exp`,
exclusive at the upper end). -/
def jwtDecode (w : Wire) (key : String) (algs : List String) (now : Int) :
    Except JwtError Dict :=
  match w with
  | .malformed _ => .error .decodeError
  | .signed payload k a =>
    if k == key && algs.contains a then
      match dictGet? payload "exp" with
      | some (.n e) => if e ≤ now then .error .expiredSignature else .ok payload
      | some (.s _) => .error .decodeError
      | none => .ok payload
    else .error .invalidSignature

/-- `create_access_token(data=data, expires_delta=expires_delta)` evaluated
when the clock reads `now`. The function works on `to_encode = data.copy()`,
so the caller's mapping is untouched; the pair returned here is the token
together with the caller's `data` as it stands after the call, making that
frame condition a stated fact rather than an implicit one. -/
def create_access_token (s : Settings) (data : Dict)
    (expires_delta : Option Int) (now : Int) : Wire × Dict :=
  (jwtEncode (issuedPayload s data expires_delta now)
    s.jwt_secret_key s.jwt_algorithm, data)

/-- `decode_token(token)` evaluated when the clock reads `now`: runs
`jwt.decode` under the configured key and algorithm and catches every
`PyJWTError`, collapsing all failure causes to the single value `None`. -/
def decode_token (s : Settings) (token : Wire) (now : Int) : Option Dict :=
  match jwtDecode token s.jwt_secret_key [s.jwt_algorithm] now with
  | .ok d => some d
  | .error _ => none

/-- The `UserRole` enumeration of `app/models/user_model.py`. The spec's
`baseline` level is the source's `ANONYMOUS`. -/
inductive UserRole where
  | ANONYMOUS
  | AUTHENTICATED
  | MANAGER
  | ADMIN
deriving DecidableEq, Repr

/-- The `User` model's authentication-relevant columns. `DateTime` columns
are integer instants; nullable columns are `Option`; the server-managed
`created_at`/`updated_at` timestamps are carried as plain data (their SQL
defaults are a persistence concern outside this core). -/
structure User where
  id : Nat
  nickname : String
  email : String
  first_name : Option String := none
  last_name : Option String := none
  bio : Option String := none
  profile_picture_url : Option String := none
  linkedin_profile_url : Option String := none
  github_profile_url : Option String := none
  role : UserRole := .ANONYMOUS
  is_professional : Bool := false
  professional_status_updated_at : Option Int := none
  last_login_at : Option Int := none
  failed_login_attempts : Nat := 0
  is_locked : Bool := false
  created_at : Option Int := none
  updated_at : Option Int := none
  verification_token : Option String := none
  email_verified : Bool := false
  hashed_password : String
deriving DecidableEq, Repr

/-- `User.lock_account`: sets `is_locked = True`. -/
def User.lock_account (u : User) : User := { u with is_locked := true }

/-- `User.unlock_account`: sets `is_locked = False`. -/
def User.unlock_account (u : User) : User := { u with is_locked := false }

/-- `User.verify_email`: sets `email_verified = True`. -/
def User.verify_email (u : User) : User := { u with email_verified := true }

/-- `User.has_role(role_name)`: `self.role == role_name`, an exact equality
test on the enumeration. -/
def User.has_role (u : User) (role_name : UserRole) : Bool :=
  u.role == role_name

/-- `User.update_professional_status(status)`: sets the flag and stamps the
change instant (`func.now()` is the clock reading `now`). -/
def User.update_professional_status (u : User) (status : Bool) (now : Int) :
    User :=
  { u with is_professional := status,
           professional_status_updated_at := some now }

/-- The rank of a role in the spec's fixed order
baseline < authenticated < manager < admin. -/
def roleRank : UserRole → Nat
  | .ANONYMOUS => 0
  | .AUTHENTICATED => 1
  | .MANAGER => 2
  | .ADMIN => 3

/-- Written from the spec's words, for comparison with the source's
`has_role`: "satisfaction is role equality or a higher position in the fixed
order baseline < authenticated < manager < admin". -/
def roleSatisfiesSpec (a b : UserRole) : Bool :=
  a == b || decide (roleRank b < roleRank a)

/-- Modelled from the spec: the lockout policy's failure transition applied
to an `Open` account (the repository's login service, which holds this
logic, is not among the provided sources). Increments
`failed_login_attempts` by 1 and, when the new count reaches the configured
maximum `M`, locks the account via the model's `lock_account` in the same
step. -/
def apply_failure (M : Nat) (u : User) : User :=
  if M ≤ u.failed_login_attempts + 1 then
    User.lock_account
      { u with failed_login_attempts := u.failed_login_attempts + 1 }
  else { u with failed_login_attempts := u.failed_login_attempts + 1 }

/-- Modelled from the spec: transition `record_failure`, "only valid from
`Open`"; on a `Locked` account the transition is rejected (`none`). -/
def record_failure (M : Nat) (u : User) : Option User :=
  if u.is_locked then none else some (apply_failure M u)

/-- Modelled from the spec: the success transition applied to an `Open`
account: resets `failed_login_attempts` to 0 and updates the last-login
timestamp. -/
def apply_success (now : Int) (u : User) : User :=
  { u with failed_login_attempts := 0, last_login_at := some now }

/-- Modelled from the spec: transition `record_success`, "valid only from
`Open`"; on a `Locked` account the transition is rejected (`none`). -/
def record_success (now : Int) (u : User) : Option User :=
  if u.is_locked then none else some (apply_success now u)

/-- Modelled from the spec: transition `administrative_unlock`, "valid from
`Locked` only; sets `is_locked=false` and resets `failed_login_attempts`
to 0", using the model's `unlock_account` for the flag. -/
def administrative_unlock (u : User) : Option User :=
  if u.is_locked then
    some { u.unlock_account with failed_login_attempts := 0 }
  else none

/-- The outcome visible after one login attempt: the result reported to the
caller, the account record afterwards, and whether the credential
collaborator's `verify(plaintext, digest)` was invoked at all. -/
inductive LoginResult where
  | success
  | accountLocked
  | invalidCredentials
deriving DecidableEq, Repr

/-- Outcome record of `attempt_login`. -/
structure LoginOutcome where
  result : LoginResult
  user : User
  credentialChecked : Bool
deriving DecidableEq, Repr

/-- Modelled from the spec: `attempt_login(account, plaintext)` of the login
flow (held by the repository's user service, not among the provided
sources). From `Locked`, the attempt is rejected with the lockout error
before credential verification is attempted; otherwise the credential
collaborator's verdict `passwordOk` selects the success or failure
transition. -/
def attempt_login (M : Nat) (now : Int) (u : User) (passwordOk : Bool) :
    LoginOutcome :=
  if u.is_locked then
    { result := .accountLocked, user := u, credentialChecked := false }
  else if passwordOk then
    { result := .success, user := apply_success now u,
      credentialChecked := true }
  else
    { result := .invalidCredentials, user := apply_failure M u,
      credentialChecked := true }

/-- `k` consecutive `record_failure` transitions, each one valid only if the
previous left the account `Open`. -/
def iterateFailures (M : Nat) : Nat → User → Option User
  | 0, u => some u
  | Nat.succ k, u => (record_failure M u).bind (iterateFailures M k)

/-- One step of the lockout policy's state machine: a failed login, a
successful login at some instant, or an administrative unlock. -/
inductive LockoutStep (M : Nat) : User → User → Prop
  | failure {u v : User} : record_failure M u = some v → LockoutStep M u v
  | success {u v : User} (t : Int) :
      record_success t u = some v → LockoutStep M u v
  | unlock {u v : User} :
      administrative_unlock u = some v → LockoutStep M u v

/-- The account states reachable from `u` through the lockout policy's
transitions. -/
def Reachable (M : Nat) : User → User → Prop :=
  Relation.ReflTransGen (LockoutStep M)

/-- Looking up the key just assigned returns the assigned value. -/
theorem dictGet_set_same (d : Dict) (k : String) (v : JVal) :
    dictGet? (dictSet d k v) k = some v := by
  induction d with
  | nil => simp [dictSet, dictGet?]
  | cons p rest ih =>
    obtain ⟨kh, vh⟩ := p
    by_cases hk : kh == k
    · simp [dictSet, dictGet?, hk]
    · simp [dictSet, dictGet?, hk, ih]

/-- Assigning one key leaves lookups of any other key unchanged. -/
theorem dictGet_set_ne (d : Dict) (k k2 : String) (v : JVal) (h : k2 ≠ k) :
    dictGet? (dictSet d k v) k2 = dictGet? d k2 := by
  induction d with
  | nil =>
    have hne : (k == k2) = false := by simp [beq_iff_eq]; exact fun e => h e.symm
    simp [dictSet, dictGet?, hne]
  | cons p rest ih =>
    obtain ⟨kh, vh⟩ := p
    by_cases hk : kh == k
    · have hk2 : (kh == k2) = false := by
        simp [beq_iff_eq] at hk ⊢
        exact fun e => h (e ▸ hk ▸ rfl)
      simp [dictSet, dictGet?, hk, hk2]
    · simp only [dictSet, hk]
      by_cases hk2 : kh == k2
      · simp [dictGet?, hk2]
      · simp [dictGet?, hk2, ih]

/-- The payload built by `create_access_token` carries
`exp = now + effectiveTTL`. -/
theorem issuedPayload_get_exp (s : Settings) (data : Dict)
    (delta : Option Int) (t0 : Int) :
    dictGet? (issuedPayload s data delta t0) "exp" =
      some (.n (t0 + effectiveTTL s delta)) := by
  unfold issuedPayload
  exact dictGet_set_same _ _ _

/-- Decoding a freshly issued token under the issuing configuration checks
out to exactly the expiry test. -/
theorem jwtDecode_create (s : Settings) (data : Dict) (delta : Option Int)
    (t0 now : Int) :
    jwtDecode (create_access_token s data delta t0).1 s.jwt_secret_key
        [s.jwt_algorithm] now =
      if t0 + effectiveTTL s delta ≤ now then .error .expiredSignature
      else .ok (issuedPayload s data delta t0) := by
  simp [create_access_token, jwtEncode, jwtDecode, issuedPayload_get_exp,
    List.contains]

/-- Before the expiry instant, `decode_token` returns the issued payload. -/
theorem decode_token_create_before (s : Settings) (data : Dict)
    (delta : Option Int) (t0 now : Int)
    (h : now < t0 + effectiveTTL s delta) :
    decode_token s (create_access_token s data delta t0).1 now =
      some (issuedPayload s data delta t0) := by
  unfold decode_token
  rw [jwtDecode_create, if_neg (by omega)]

/-- At or after the expiry instant, the decode fails with
`ExpiredSignatureError`, which `decode_token` maps to `none`. -/
theorem decode_token_create_after (s : Settings) (data : Dict)
    (delta : Option Int) (t0 now : Int)
    (h : t0 + effectiveTTL s delta ≤ now) :
    jwtDecode (create_access_token s data delta t0).1 s.jwt_secret_key
        [s.jwt_algorithm] now = .error .expiredSignature
    ∧ decode_token s (create_access_token s data delta t0).1 now = none := by
  constructor
  · rw [jwtDecode_create, if_pos h]
  · unfold decode_token
    rw [jwtDecode_create, if_pos h]

/-- The issued payload keeps any entry of `data` at a key other than
`"role"` and `"exp"`. -/
theorem issuedPayload_get_other (s : Settings) (data : Dict)
    (delta : Option Int) (t0 : Int) (k : String) (hr : k ≠ "role")
    (he : k ≠ "exp") :
    dictGet? (issuedPayload s data delta t0) k = dictGet? data k := by
  unfold issuedPayload
  dsimp only
  cases h : dictGet? data "role" with
  | none => rw [dictGet_set_ne _ _ _ _ he]
  | some v =>
    rw [dictGet_set_ne _ _ _ _ he]
    exact dictGet_set_ne _ _ _ _ hr

/-- When `data` holds a string role, the issued payload holds its uppercase
form. -/
theorem issuedPayload_get_role (s : Settings) (data : Dict)
    (delta : Option Int) (t0 : Int) (r : String)
    (h : dictGet? data "role" = some (.s r)) :
    dictGet? (issuedPayload s data delta t0) "role" =
      some (.s (strUpper r)) := by
  unfold issuedPayload
  dsimp only
  rw [h]
  rw [dictGet_set_ne _ _ _ _ (by decide : ("role" : String) ≠ "exp")]
  rw [dictGet_set_same]
  rfl

/-- On an `Open` account, `record_failure` applies the failure step. -/
theorem record_failure_of_open (M : Nat) (u : User)
    (h : u.is_locked = false) :
    record_failure M u = some (apply_failure M u) := by
  simp [record_failure, h]

/-- The failure step increments the counter by exactly 1, whether or not it
locks. -/
theorem apply_failure_count (M : Nat) (u : User) :
    (apply_failure M u).failed_login_attempts =
      u.failed_login_attempts + 1 := by
  unfold apply_failure User.lock_account
  split <;> rfl

/-- Below the threshold, the failure step only increments the counter. -/
theorem apply_failure_below (M : Nat) (u : User)
    (h : u.failed_login_attempts + 1 < M) :
    apply_failure M u =
      { u with failed_login_attempts := u.failed_login_attempts + 1 } := by
  unfold apply_failure
  rw [if_neg (by omega)]

/-- At the threshold, the failure step increments the counter and locks the
account in the same step. -/
theorem apply_failure_at (M : Nat) (u : User)
    (h : M ≤ u.failed_login_attempts + 1) :
    apply_failure M u =
      { u with failed_login_attempts := u.failed_login_attempts + 1,
               is_locked := true } := by
  unfold apply_failure
  rw [if_pos h]
  rfl

/-- Every accepted `record_failure` increments the counter by exactly 1. -/
theorem record_failure_count (M : Nat) (u v : User)
    (h : record_failure M u = some v) :
    v.failed_login_attempts = u.failed_login_attempts + 1 := by
  cases hu : u.is_locked with
  | true => simp [record_failure, hu] at h
  | false =>
    rw [record_failure, if_neg (by simp [hu])] at h
    cases h
    exact apply_failure_count M u

/-- An accepted `record_failure` that leaves the account `Open` leaves the
counter strictly below the threshold. -/
theorem record_failure_open_bound (M : Nat) (u v : User)
    (h : record_failure M u = some v) (hv : v.is_locked = false) :
    v.failed_login_attempts < M := by
  cases hu : u.is_locked with
  | true => simp [record_failure, hu] at h
  | false =>
    rw [record_failure, if_neg (by simp [hu])] at h
    cases h
    by_cases hM : M ≤ u.failed_login_attempts + 1
    · rw [apply_failure_at M u hM] at hv
      simp at hv
    · rw [apply_failure_below M u (by omega)] at hv ⊢
      show u.failed_login_attempts + 1 < M
      omega

/-- An accepted `record_failure` that ends `Locked` ends with the counter at
or above the threshold. -/
theorem record_failure_locked_count (M : Nat) (u v : User)
    (h : record_failure M u = some v) (hv : v.is_locked = true) :
    M ≤ v.failed_login_attempts := by
  cases hu : u.is_locked with
  | true => simp [record_failure, hu] at h
  | false =>
    rw [record_failure, if_neg (by simp [hu])] at h
    cases h
    by_cases hM : M ≤ u.failed_login_attempts + 1
    · rw [apply_failure_at M u hM]
      show M ≤ u.failed_login_attempts + 1
      exact hM
    · rw [apply_failure_below M u (by omega)] at hv
      rw [show ({ u with failed_login_attempts :=
            u.failed_login_attempts + 1 } : User).is_locked = u.is_locked
          from rfl, hu] at hv
      exact absurd hv (by simp)

/-- Unfolding a failure run from the right: `k+1` failures are `k` failures
followed by one more. -/
theorem iterateFailures_succ_right (M : Nat) (k : Nat) (u : User) :
    iterateFailures M (k + 1) u =
      (iterateFailures M k u).bind (record_failure M) := by
  induction k generalizing u with
  | zero =>
    show (record_failure M u).bind (iterateFailures M 0) = _
    cases h : record_failure M u <;> simp [iterateFailures, h]
  | succ k ih =>
    have hL : iterateFailures M (k + 1 + 1) u =
        (record_failure M u).bind (iterateFailures M (k + 1)) := rfl
    have hR : iterateFailures M (k + 1) u =
        (record_failure M u).bind (iterateFailures M k) := rfl
    rw [hL, hR]
    cases h : record_failure M u with
    | none => simp
    | some v => simp [ih v]

/-- A run of failures that stays strictly below the threshold keeps the
account `Open` and just accumulates the counter. -/
theorem iterateFailures_stays_open (M : Nat) : ∀ (k : Nat) (u : User),
    u.is_locked = false → u.failed_login_attempts + k < M →
    iterateFailures M k u =
      some { u with failed_login_attempts := u.failed_login_attempts + k } := by
  intro k
  induction k with
  | zero => intro u ho _; rfl
  | succ k ih =>
    intro u ho hlt
    show (record_failure M u).bind (iterateFailures M k) = _
    rw [record_failure_of_open M u ho,
      apply_failure_below M u (by omega)]
    show iterateFailures M k
      { u with failed_login_attempts := u.failed_login_attempts + 1 } = _
    rw [ih { u with failed_login_attempts := u.failed_login_attempts + 1 }
      ho (by show u.failed_login_attempts + 1 + k < M; omega)]
    show some { u with failed_login_attempts :=
      u.failed_login_attempts + 1 + k } = _
    rw [Nat.add_assoc, Nat.add_comm 1 k]

/-- Any single lockout-policy step that ends `Locked` ends with the counter
at or above the threshold. -/
theorem step_locked_count (M : Nat) (u v : User) (h : LockoutStep M u v)
    (hv : v.is_locked = true) : M ≤ v.failed_login_attempts := by
  cases h with
  | failure hf => exact record_failure_locked_count M u v hf hv
  | success t hs =>
    cases hu : u.is_locked with
    | true => simp [record_success, hu] at hs
    | false =>
      rw [record_success, if_neg (by simp [hu])] at hs
      cases hs
      rw [show (apply_success t u).is_locked = u.is_locked from rfl, hu] at hv
      exact absurd hv (by simp)
  | unlock hl =>
    cases hu : u.is_locked with
    | true =>
      rw [administrative_unlock, if_pos (by simp [hu])] at hl
      cases hl
      simp [User.unlock_account] at hv
    | false => simp [administrative_unlock, hu] at hl

/-- Concrete configuration used by the concrete instances: default lifetime
15 minutes, a symmetric key, algorithm HS256. -/
def settingsW : Settings :=
  { access_token_expire_minutes := 15, jwt_secret_key := "k0",
    jwt_algorithm := "HS256" }

/-- Concrete claims mapping with a subject and a lowercase role. -/
def dataW : Dict :=
  [("sub", .s "alice@example.com"), ("role", .s "authenticated")]

/-- A fresh `Open` account: no failed attempts, not locked. -/
def freshUser : User :=
  { id := 1, nickname := "alice", email := "alice@example.com",
    role := .AUTHENTICATED, hashed_password := "digest" }

/-- A `Locked` account with its counter at a threshold of 5. -/
def lockedUser : User :=
  { id := 2, nickname := "bob", email := "bob@example.com",
    role := .AUTHENTICATED, failed_login_attempts := 5, is_locked := true,
    hashed_password := "digest" }

/-- An account holding the `ADMIN` role. -/
def adminUser : User :=
  { id := 3, nickname := "admin_user", email := "admin@example.com",
    role := .ADMIN, email_verified := true, hashed_password := "digest" }

/-- C1: a `Locked` account can never authenticate: any login attempt,
regardless of credential correctness, is rejected with the lockout error
with the credential collaborator never invoked, `record_success` is
rejected, and the account remains `Locked` with its
`failed_login_attempts` counter unchanged. -/
theorem locked_account_never_authenticates (M : Nat) (now : Int) (u : User)
    (passwordOk : Bool) (hl : u.is_locked = true) :
    attempt_login M now u passwordOk =
      { result := .accountLocked, user := u, credentialChecked := false }
    ∧ (attempt_login M now u passwordOk).user.is_locked = true
    ∧ (attempt_login M now u passwordOk).user.failed_login_attempts =
        u.failed_login_attempts
    ∧ record_success now u = none := by
  have h1 : attempt_login M now u passwordOk =
      { result := .accountLocked, user := u, credentialChecked := false } := by
    unfold attempt_login
    rw [if_pos hl]
  exact ⟨h1, by rw [h1]; exact hl, by rw [h1],
    by simp [record_success, hl]⟩

/-- Witness for C1 at a concrete locked account presenting correct
credentials. -/
theorem locked_account_never_authenticates_witness :
    attempt_login 5 100 lockedUser true =
      { result := .accountLocked, user := lockedUser,
        credentialChecked := false }
    ∧ record_success 100 lockedUser = none :=
  ⟨(locked_account_never_authenticates 5 100 lockedUser true rfl).1,
    (locked_account_never_authenticates 5 100 lockedUser true rfl).2.2.2⟩

/-- C2: from a fresh `Open` account with positive threshold `M`, every
accepted `record_failure` increments the counter by exactly 1; `M-1`
consecutive failures leave the account `Open` at count `M-1`; the `M`-th
locks it with count `M` in the same step; and no run of failures ever
exhibits an `Open` account whose counter has reached the threshold. -/
theorem lockout_threshold_behaviour (M : Nat) (u : User) (hM : 0 < M)
    (h0 : u.failed_login_attempts = 0) (ho : u.is_locked = false) :
    (∀ v w, record_failure M v = some w →
      w.failed_login_attempts = v.failed_login_attempts + 1)
    ∧ iterateFailures M (M - 1) u =
        some { u with failed_login_attempts := M - 1 }
    ∧ iterateFailures M M u =
        some { u with failed_login_attempts := M, is_locked := true }
    ∧ (∀ k w, iterateFailures M k u = some w → w.is_locked = false →
        w.failed_login_attempts < M) := by
  have h2 : iterateFailures M (M - 1) u =
      some { u with failed_login_attempts := M - 1 } := by
    rw [iterateFailures_stays_open M (M - 1) u ho (by omega), h0,
      Nat.zero_add]
  have h3 : iterateFailures M M u =
      some { u with failed_login_attempts := M, is_locked := true } := by
    obtain ⟨m, rfl⟩ : ∃ m, M = m + 1 := ⟨M - 1, by omega⟩
    rw [iterateFailures_succ_right,
      iterateFailures_stays_open (m + 1) m u ho (by omega)]
    show record_failure (m + 1)
      { u with failed_login_attempts := u.failed_login_attempts + m } = _
    rw [record_failure_of_open (m + 1)
        { u with failed_login_attempts := u.failed_login_attempts + m } ho,
      apply_failure_at (m + 1)
        { u with failed_login_attempts := u.failed_login_attempts + m }
        (by show m + 1 ≤ u.failed_login_attempts + m + 1; omega)]
    show some { u with failed_login_attempts :=
      u.failed_login_attempts + m + 1, is_locked := true } = _
    rw [h0, Nat.zero_add]
  refine ⟨fun v w h => record_failure_count M v w h, h2, h3, ?_⟩
  intro k w hk hw
  cases k with
  | zero =>
    cases hk
    omega
  | succ k =>
    rw [iterateFailures_succ_right] at hk
    cases hik : iterateFailures M k u with
    | none => rw [hik] at hk; simp at hk
    | some v =>
      rw [hik] at hk
      exact record_failure_open_bound M v w hk hw

/-- Witness for C2 at threshold 3 on a fresh account: two failures leave it
open at count 2, the third locks it at count 3. -/
theorem lockout_threshold_behaviour_witness :
    iterateFailures 3 2 freshUser =
      some { freshUser with failed_login_attempts := 2 }
    ∧ iterateFailures 3 3 freshUser =
      some { freshUser with failed_login_attempts := 3, is_locked := true } :=
  ⟨(lockout_threshold_behaviour 3 freshUser (by decide) rfl rfl).2.1,
    (lockout_threshold_behaviour 3 freshUser (by decide) rfl rfl).2.2.1⟩

/-- C3: on a `Locked` account, `administrative_unlock` clears the lock flag
and resets `failed_login_attempts` to 0, restoring the `Open` state. -/
theorem administrative_unlock_restores_open (u : User)
    (hl : u.is_locked = true) :
    administrative_unlock u =
      some { u with is_locked := false, failed_login_attempts := 0 } := by
  unfold administrative_unlock
  rw [if_pos hl]
  rfl

/-- Witness for C3 at a concrete locked account with counter 5. -/
theorem administrative_unlock_restores_open_witness :
    administrative_unlock lockedUser =
      some { lockedUser with is_locked := false, failed_login_attempts := 0 } :=
  administrative_unlock_restores_open lockedUser rfl

/-- C8: in every account state reachable through the lockout policy from a
fresh `Open` account, `is_locked = true` implies the counter is at or above
the threshold; and `failed_login_attempts` is reset to zero by every
successful login and by every administrative unlock, the transitions on
which `is_locked` becomes false or a login succeeds. -/
theorem lockout_state_invariant (M : Nat) (u0 w : User) (_hM : 0 < M)
    (_h0 : u0.failed_login_attempts = 0) (ho : u0.is_locked = false)
    (hr : Reachable M u0 w) :
    (w.is_locked = true → M ≤ w.failed_login_attempts)
    ∧ (∀ a b t, record_success t a = some b → b.failed_login_attempts = 0)
    ∧ (∀ a b, administrative_unlock a = some b →
        b.is_locked = false ∧ b.failed_login_attempts = 0) := by
  unfold Reachable at hr
  refine ⟨?_, ?_, ?_⟩
  · induction hr with
    | refl => intro h; rw [ho] at h; exact absurd h (by simp)
    | tail hsteps hstep ih =>
      intro h
      exact step_locked_count M _ _ hstep h
  · intro a b t hs
    cases ha : a.is_locked with
    | true => simp [record_success, ha] at hs
    | false =>
      rw [record_success, if_neg (by simp [ha])] at hs
      cases hs
      rfl
  · intro a b hs
    cases ha : a.is_locked with
    | true =>
      rw [administrative_unlock, if_pos ha] at hs
      cases hs
      exact ⟨rfl, rfl⟩
    | false => simp [administrative_unlock, ha] at hs

/-- The account reached from `freshUser` by three consecutive failures at
threshold 3. -/
def lockedByPolicy : User :=
  { freshUser with failed_login_attempts := 3, is_locked := true }

/-- Witness for C8 along the concrete three-failure run at threshold 3. -/
theorem lockout_state_invariant_witness :
    lockedByPolicy.is_locked = true
    ∧ 3 ≤ lockedByPolicy.failed_login_attempts := by
  have h1 : LockoutStep 3 freshUser
      { freshUser with failed_login_attempts := 1 } := .failure rfl
  have h2 : LockoutStep 3 { freshUser with failed_login_attempts := 1 }
      { freshUser with failed_login_attempts := 2 } := .failure rfl
  have h3 : LockoutStep 3 { freshUser with failed_login_attempts := 2 }
      lockedByPolicy := .failure rfl
  have hchain : Reachable 3 freshUser lockedByPolicy :=
    Relation.ReflTransGen.tail
      (Relation.ReflTransGen.tail
        (Relation.ReflTransGen.tail Relation.ReflTransGen.refl h1) h2) h3
  exact ⟨rfl,
    (lockout_state_invariant 3 freshUser lockedByPolicy (by decide) rfl rfl
      hchain).1 rfl⟩

/-- C4 counterexample: in the spec's fixed order `admin` stands strictly
above `manager`, yet the source's satisfaction check `has_role` answers
`false` for an `ADMIN` account against a `MANAGER` requirement — the
claimed "equal or strictly higher" reading fails at the pair
`(ADMIN, MANAGER)`. -/
theorem role_satisfaction_counterexample :
    roleSatisfiesSpec UserRole.ADMIN UserRole.MANAGER = true
    ∧ User.has_role adminUser UserRole.MANAGER = false :=
  ⟨rfl, rfl⟩

/-- C4 amended: the source's role-satisfaction check `has_role` succeeds
exactly on role equality; a strictly higher role in the order
baseline < authenticated < manager < admin does not satisfy a lower
requirement through it. -/
theorem has_role_is_exact_equality (u : User) (r : UserRole) :
    User.has_role u r = true ↔ u.role = r := by
  constructor
  · intro h
    exact of_decide_eq_true h
  · intro h
    exact decide_eq_true h

/-- C5: a token issued at `t0` whose effective time-to-live is `T`
(`effectiveTTL`) verifies at every instant strictly before `t0 + T` to the
issued payload, and at every instant at or after `t0 + T` the decode fails
with the expiry error and `decode_token` returns `none`: the boundary is
exclusive on the upper end. -/
theorem token_expiry_boundary (s : Settings) (data : Dict)
    (delta : Option Int) (t0 now : Int) :
    (now < t0 + effectiveTTL s delta →
      decode_token s (create_access_token s data delta t0).1 now =
        some (issuedPayload s data delta t0))
    ∧ (t0 + effectiveTTL s delta ≤ now →
      jwtDecode (create_access_token s data delta t0).1 s.jwt_secret_key
          [s.jwt_algorithm] now = .error .expiredSignature
      ∧ decode_token s (create_access_token s data delta t0).1 now = none) :=
  ⟨fun h => decode_token_create_before s data delta t0 now h,
    fun h => decode_token_create_after s data delta t0 now h⟩

/-- Witness for C5: ttl 15 minutes (900 s) from instant 0; verification
succeeds at 899 and fails at 900. -/
theorem token_expiry_boundary_witness :
    decode_token settingsW (create_access_token settingsW dataW none 0).1
        899 = some (issuedPayload settingsW dataW none 0)
    ∧ decode_token settingsW (create_access_token settingsW dataW none 0).1
        900 = none :=
  ⟨(token_expiry_boundary settingsW dataW none 0 899).1 (by decide),
    ((token_expiry_boundary settingsW dataW none 0 900).2 (by decide)).2⟩

/-- C6: round-trip: a token issued from claims carrying subject and role
verifies at any instant before expiry to exactly the issued payload, which
carries the original subject unchanged and the role normalized to its
uppercase form. -/
theorem issue_verify_round_trip (s : Settings) (data : Dict)
    (delta : Option Int) (t0 now : Int) (subject r : String)
    (hsub : dictGet? data "sub" = some (.s subject))
    (hrole : dictGet? data "role" = some (.s r))
    (hnow : now < t0 + effectiveTTL s delta) :
    decode_token s (create_access_token s data delta t0).1 now =
      some (issuedPayload s data delta t0)
    ∧ dictGet? (issuedPayload s data delta t0) "sub" = some (.s subject)
    ∧ dictGet? (issuedPayload s data delta t0) "role" =
        some (.s (strUpper r)) := by
  refine ⟨decode_token_create_before s data delta t0 now hnow, ?_, ?_⟩
  · rw [issuedPayload_get_other s data delta t0 "sub" (by decide)
      (by decide)]
    exact hsub
  · exact issuedPayload_get_role s data delta t0 r hrole

/-- Witness for C6: role `authenticated` comes back as `AUTHENTICATED` and
the subject survives the round trip. -/
theorem issue_verify_round_trip_witness :
    strUpper "authenticated" = "AUTHENTICATED"
    ∧ (decode_token settingsW
          (create_access_token settingsW dataW none 0).1 0 =
        some (issuedPayload settingsW dataW none 0)
      ∧ dictGet? (issuedPayload settingsW dataW none 0) "sub" =
          some (.s "alice@example.com")
      ∧ dictGet? (issuedPayload settingsW dataW none 0) "role" =
          some (.s (strUpper "authenticated"))) :=
  ⟨by decide,
    issue_verify_round_trip settingsW dataW none 0 0 "alice@example.com"
      "authenticated" rfl rfl (by decide)⟩

/-- C7: verification is total — every input token yields a value, never an
exception — and malformed encoding, signature or algorithm mismatch, and
expiry all collapse to the one failure value `none`, so the three causes
are indistinguishable to the caller. -/
theorem decode_token_failure_semantics (s : Settings) :
    (∀ w now, decode_token s w now = none ∨
      ∃ d, decode_token s w now = some d)
    ∧ (∀ raw now, decode_token s (.malformed raw) now = none)
    ∧ (∀ payload k a now,
        (k == s.jwt_secret_key && [s.jwt_algorithm].contains a) = false →
        decode_token s (.signed payload k a) now = none)
    ∧ (∀ payload now e, dictGet? payload "exp" = some (.n e) → e ≤ now →
        decode_token s
          (.signed payload s.jwt_secret_key s.jwt_algorithm) now = none) := by
  refine ⟨?_, ?_, ?_, ?_⟩
  · intro w now
    cases h : decode_token s w now with
    | none => exact Or.inl rfl
    | some d => exact Or.inr ⟨d, rfl⟩
  · intro raw now
    rfl
  · intro payload k a now h
    unfold decode_token jwtDecode
    dsimp only
    rw [h]
    rfl
  · intro payload now e h he
    simp [decode_token, jwtDecode, List.contains, h, he]

/-- Witness for C7: a malformed token, a token signed under a different
key, and an expired token all decode to `none` under the concrete
configuration. -/
theorem decode_token_failure_semantics_witness :
    decode_token settingsW (.malformed "garbage") 0 = none
    ∧ decode_token settingsW
        (.signed [("exp", JVal.n 900)] "other" "HS256") 0 = none
    ∧ decode_token settingsW
        (.signed [("exp", JVal.n 900)] "k0" "HS256") 1000 = none :=
  ⟨(decode_token_failure_semantics settingsW).2.1 "garbage" 0,
    (decode_token_failure_semantics settingsW).2.2.1
      [("exp", JVal.n 900)] "other" "HS256" 0 (by decide),
    (decode_token_failure_semantics settingsW).2.2.2
      [("exp", JVal.n 900)] 1000 900 rfl (by decide)⟩

/-- C9: issuance has no side effect on the caller's claims mapping: after
`create_access_token` the caller's `data` stands exactly as before, and the
role normalization and expiry insertion appear only in the issued copy,
which agrees with `data` at every other key. -/
theorem issue_has_no_side_effects (s : Settings) (data : Dict)
    (delta : Option Int) (now : Int) :
    (create_access_token s data delta now).2 = data
    ∧ (∀ k, k ≠ "role" → k ≠ "exp" →
        dictGet? (issuedPayload s data delta now) k = dictGet? data k) :=
  ⟨rfl, fun k hr he => issuedPayload_get_other s data delta now k hr he⟩

/-- Witness for C9 at the concrete claims mapping: the caller's dict is
returned unchanged and the subject entry of the issued copy agrees with
it. -/
theorem issue_has_no_side_effects_witness :
    (create_access_token settingsW dataW none 0).2 = dataW
    ∧ dictGet? (issuedPayload settingsW dataW none 0) "sub" =
        dictGet? dataW "sub" :=
  ⟨(issue_has_no_side_effects settingsW dataW none 0).1,
    (issue_has_no_side_effects settingsW dataW none 0).2 "sub" (by decide)
      (by decide)⟩

/-- C10: a zero-length `expires_delta` is falsy in
`expires_delta or timedelta(minutes=...)`, so the expiry is computed from
the configured default lifetime — identical to passing no delta — and with
a positive configured lifetime the token verifies at its own issuance
instant rather than being born expired. -/
theorem zero_expires_delta_uses_default (s : Settings) (data : Dict)
    (t0 : Int) :
    dictGet? (issuedPayload s data (some 0) t0) "exp" =
      some (.n (t0 + s.access_token_expire_minutes * 60))
    ∧ issuedPayload s data (some 0) t0 = issuedPayload s data none t0
    ∧ (0 < s.access_token_expire_minutes →
        decode_token s (create_access_token s data (some 0) t0).1 t0 =
          some (issuedPayload s data (some 0) t0)) := by
  refine ⟨issuedPayload_get_exp s data (some 0) t0, rfl, ?_⟩
  intro h
  refine decode_token_create_before s data (some 0) t0 t0 ?_
  show t0 < t0 + s.access_token_expire_minutes * 60
  omega

/-- Witness for C10: with delta 0 and the 15-minute default, the expiry is
900 and the token verifies at its issuance instant. -/
theorem zero_expires_delta_uses_default_witness :
    dictGet? (issuedPayload settingsW dataW (some 0) 0) "exp" =
      some (.n 900)
    ∧ decode_token settingsW
        (create_access_token settingsW dataW (some 0) 0).1 0 =
      some (issuedPayload settingsW dataW (some 0) 0) :=
  ⟨(zero_expires_delta_uses_default settingsW dataW 0).1,
    (zero_expires_delta_uses_default settingsW dataW 0).2.2 (by decide)⟩
